import Mathlib

/-!
Verification development for the `MultiGateway` core of the XiaomiGateway3
integration (`custom_components/xiaomi_gateway3/core/gateway.py`).

The class is embedded shallowly: external collaborators (the privileged
`Session`, the protocol adapters, the network probes) are modelled as
oracle values supplied to each operation, and every operation is embedded
as a pure function that returns, next to its result, the trace of external
actions it performed, in program order.  Fallible operations return
`Except Unit` values; a Python exception is `Except.error ()`.
-/

namespace XiaomiGateway3

/-! ## Sessions

The privileged shell session (`shell/session.py`) is an external
collaborator; the core consults only the verbs below.  Modelled from the
spec: the Session contract of §6 (`only_one`, `get_miio_info`,
`get_version`, the `read_db_bluetooth` capability probe).  The field
`hasMatterProbe` is the Matter capability feature-probe posited by §4.2
step 3 of the spec; the source code never consults any such probe, which
is what the analysis of claim C3 below turns on. -/

structure Session where
  /-- Result of `await sh.only_one()`. -/
  onlyOne : Bool
  /-- Field `model` of the mapping returned by `await sh.get_miio_info()`. -/
  model : String
  /-- Result of `await sh.get_version()`, stored into `info["version"]`. -/
  version : String
  /-- Result of the feature-probe `hasattr(sh, "read_db_bluetooth")`. -/
  hasReadDbBluetooth : Bool
  /-- Modelled from the spec: a hypothetical Matter capability feature-probe
  on the session object, analogous to `read_db_bluetooth`.  Not consulted
  anywhere in the source. -/
  hasMatterProbe : Bool
  deriving DecidableEq, Repr

/-! ## Bootstrap (`prepare_gateway`) -/

/-- Event kinds of the dispatcher: `EVENT_MQTT_PUBLISH` and `EVENT_TIMER`. -/
inductive EventKind where
  | mqttPublish
  | timer
  deriving DecidableEq, Repr

/-- The handler references that `prepare_gateway` registers. -/
inductive EvHandler where
  | lumiOnMqttPublish
  | miotOnMqttPublish
  | openmiioOnMqttPublish
  | silabsOnMqttPublish
  | bleOnMqttPublish
  | meshOnMqttPublish
  | matterOnMqttPublish
  | openmiioOnTimer
  | silabsOnTimer
  deriving DecidableEq, Repr

/-- External actions performed by `prepare_gateway`, in program order. -/
inductive PrepAction where
  | onlyOneCheck
  | getMiioInfo
  | getVersion
  | baseReadDevice
  | lumiReadDevices
  | silabsReadDevice
  | openmiioPrepareGateway
  | bleReadDevices
  | meshReadDevices
  | matterReadDevices
  | addListener (kind : EventKind) (h : EvHandler)
  deriving DecidableEq, Repr

/-- Embedding of `MultiGateway.prepare_gateway` (gateway.py lines 74-123) on
its exception-free paths: the returned `Bool` is the Python return value and
the list is the trace of external calls and listener registrations, in the
order the source performs them. -/
def prepare_gateway (sh : Session) : Bool × List PrepAction :=
  if !sh.onlyOne then
    (false, [.onlyOneCheck])
  else if sh.model = "lumi.gateway.mgl03" ∧ sh.version.data < "1.4.7_0160".data then
    (false, [.onlyOneCheck, .getMiioInfo, .getVersion])
  else
    (true,
      [.onlyOneCheck, .getMiioInfo, .getVersion,
       .baseReadDevice, .lumiReadDevices, .silabsReadDevice,
       .openmiioPrepareGateway]
      ++ (if sh.hasReadDbBluetooth then [.bleReadDevices, .meshReadDevices] else [])
      ++ (if sh.model = "lumi.gateway.mgl001" then [.matterReadDevices] else [])
      ++ [.addListener .mqttPublish .lumiOnMqttPublish,
          .addListener .mqttPublish .miotOnMqttPublish,
          .addListener .mqttPublish .openmiioOnMqttPublish,
          .addListener .mqttPublish .silabsOnMqttPublish]
      ++ (if sh.hasReadDbBluetooth then
            [.addListener .mqttPublish .bleOnMqttPublish,
             .addListener .mqttPublish .meshOnMqttPublish]
          else [])
      ++ (if sh.model = "lumi.gateway.mgl001" then
            [.addListener .mqttPublish .matterOnMqttPublish]
          else [])
      ++ [.addListener .timer .openmiioOnTimer,
          .addListener .timer .silabsOnTimer])

/-! ## The event-listener registry -/

/-- The registry: ordered list of (event kind, handler) pairs.  Modelled from
the spec: `add_event_listener(kind, handler)` appends (§4.3); the registry
itself lives in the gate base class, outside the core file. -/
abbrev Registry := List (EventKind × EvHandler)

/-- The listener registrations contained in a `prepare_gateway` trace. -/
def listenersOf (t : List PrepAction) : Registry :=
  t.filterMap fun a =>
    match a with
    | .addListener k h => some (k, h)
    | _ => none

/-- Registry value right after `prepare_gateway` of one cycle has run,
starting from registry `reg`: each `add_event_listner` call appends. -/
def registryAfterPrepare (sh : Session) (reg : Registry) : Registry :=
  reg ++ listenersOf (prepare_gateway sh).2

/-- Modelled from the spec: the registry is entirely cleared when a
connection cycle's event-handling phase ends (§3: "entirely cleared/rebuilt
on every reconnect cycle"); the clearing code lives outside the core file. -/
def clear_listeners (_reg : Registry) : Registry := []

/-- Registry evolution across one full supervisor cycle with session `sh`:
a successful bootstrap registers its listeners and the event phase clears
them on exit; a failed bootstrap leaves the registry as the (empty) trace
of its registrations. -/
def registryAfterCycle (sh : Session) (reg : Registry) : Registry :=
  if (prepare_gateway sh).1 then clear_listeners (registryAfterPrepare sh reg)
  else registryAfterPrepare sh reg

/-- Registry at the start of cycle `n`, given the session each cycle sees. -/
def registryBefore (shs : Nat → Session) : Nat → Registry
  | 0 => []
  | n + 1 => registryAfterCycle (shs n) (registryBefore shs n)

/-! ## Command routing (`send`) -/

/-- Device types (`const.py`: GATEWAY, ZIGBEE, MESH, GROUP, MATTER); an
extra case covers any other type, for which `send` matches no branch. -/
inductive DeviceType where
  | gateway
  | zigbee
  | mesh
  | group
  | matter
  | other
  deriving DecidableEq, Repr

/-- One entry of a payload's `params` list: an opaque mapping, of which the
router inspects only the presence of the keys `res_name` and `siid`. -/
structure Param where
  pid : Nat
  hasResName : Bool
  hasSiid : Bool
  deriving DecidableEq, Repr

/-- A command payload: a mapping whose relevant keys are `cmd`, `did`,
`params`, `method` and `commands`; `none` means the key is absent.
Entries of a `commands` list are opaque, modelled by numbers. -/
structure Payload where
  cmd : Option String := none
  did : Option String := none
  params : Option (List Param) := none
  method : Option String := none
  commands : Option (List Nat) := none
  deriving DecidableEq, Repr

/-- Adapter calls that `send` can perform, with the payload handed over. -/
inductive SendCall where
  | lumiSend (data : Payload)
  | miotSend (data : Payload)
  | silabsSend (data : Payload)
  | matterSend (data : Payload)
  deriving DecidableEq, Repr

/-- Python subscript `data[key]`: raises `KeyError` when the key is absent. -/
def getKey (o : Option α) : Except Unit α :=
  match o with
  | some v => .ok v
  | none => .error ()

/-- Embedding of `MultiGateway.send` (gateway.py lines 125-168): returns the
list of adapter calls in program order, or `Except.error ()` when a payload
subscript raises `KeyError`. -/
def send (dtype : DeviceType) (data : Payload) : Except Unit (List SendCall) := do
  match dtype with
  | .gateway =>
    let lumiCalls ←
      if data.cmd.isSome then do
        let lumi_data ←
          if data.method.isSome then do
            let ps ← getKey data.params
            pure { cmd := data.cmd, did := some "lumi.0",
                   params := some (ps.filter fun i => i.hasResName) : Payload }
          else
            pure data
        pure [SendCall.lumiSend lumi_data]
      else
        pure []
    let miotCalls ←
      if data.method.isSome then do
        let miot_data ←
          if data.cmd.isSome then do
            let ps ← getKey data.params
            pure { method := data.method,
                   params := some (ps.filter fun i => i.hasSiid) : Payload }
          else
            pure data
        pure [SendCall.miotSend miot_data]
      else
        pure []
    pure (lumiCalls ++ miotCalls)
  | .zigbee =>
    let lumiCalls ←
      if data.cmd.isSome then do
        let lumi_data ←
          if data.commands.isSome then do
            let c ← getKey data.cmd
            let d ← getKey data.did
            let ps ← getKey data.params
            pure { cmd := some c, did := some d, params := some ps : Payload }
          else
            pure data
        pure [SendCall.lumiSend lumi_data]
      else
        pure []
    let silabsCalls ←
      if data.commands.isSome then
        let silabs_data :=
          if data.cmd.isSome then { commands := data.commands : Payload }
          else data
        pure [SendCall.silabsSend silabs_data]
      else
        pure []
    pure (lumiCalls ++ silabsCalls)
  | .mesh => pure [SendCall.miotSend data]
  | .group => pure [SendCall.miotSend data]
  | .matter => pure [SendCall.matterSend data]
  | .other => pure []

/-! ## Telnet command executor (`telnet_command`) -/

/-- Oracle for one `telnet_command` invocation: the outcome of each session
verb the command might call, `Except.error ()` standing for a raised
exception.  `lockFirmwareTrue` and `lockFirmwareFalse` are the outcomes of
`sh.lock_firmware(True)` and `sh.lock_firmware(False)`. -/
structure TelnetEnv where
  openOk : Bool
  runFtp : Except Unit Unit
  reboot : Except Unit Unit
  execKillall : Except Unit Unit
  openmiioPrepare : Except Unit Unit
  lockFirmwareTrue : Except Unit Unit
  lockFirmwareFalse : Except Unit Unit
  checkFirmwareLock : Except Unit Bool

/-- Body of `telnet_command` inside the try block: dispatch on the command
name; falling through the enumeration returns Python `None` (`none`). -/
def telnetBody (env : TelnetEnv) (cmd : String) : Except Unit (Option Bool) :=
  if env.openOk then
    if cmd = "run_ftp" then
      match env.runFtp with
      | .ok _ => .ok (some true)
      | .error e => .error e
    else if cmd = "reboot" then
      match env.reboot with
      | .ok _ => .ok (some true)
      | .error e => .error e
    else if cmd = "openmiio_restart" then
      match env.execKillall with
      | .ok _ =>
        match env.openmiioPrepare with
        | .ok _ => .ok (some true)
        | .error e => .error e
      | .error e => .error e
    else if cmd = "check_firmware_lock" then
      match env.checkFirmwareLock with
      | .ok b => .ok (some b)
      | .error e => .error e
    else if cmd = "lock_firmware" then
      match env.lockFirmwareTrue with
      | .ok _ =>
        match env.checkFirmwareLock with
        | .ok b => .ok (some (b == true))
        | .error e => .error e
      | .error e => .error e
    else if cmd = "unlock_firmware" then
      match env.lockFirmwareFalse with
      | .ok _ =>
        match env.checkFirmwareLock with
        | .ok b => .ok (some (b == false))
        | .error e => .error e
      | .error e => .error e
    else
      .ok none
  else
    .error ()

/-- Embedding of `MultiGateway.telnet_command` (gateway.py lines 170-195):
tri-state result; any exception is caught and yields `none`. -/
def telnet_command (env : TelnetEnv) (cmd : String) : Option Bool :=
  match telnetBody env cmd with
  | .ok r => r
  | .error _ => none

/-! ## Supervisor loop (`run_forever`) -/

/-- Observable events of one iteration of the `run_forever` while-loop. -/
inductive LoopEvent where
  | checkPort
  | enableTelnet
  | sleep (secs : Nat)
  | prepare
  | handleMqtt
  deriving DecidableEq, Repr

/-- Oracle for one loop iteration: the results of `check_port`,
`enable_telnet` and `prepare_gateway` as the supervisor observes them. -/
structure CycleEnv where
  portOk : Bool
  enableOk : Bool
  prepareOk : Bool
  deriving DecidableEq, Repr

/-- One iteration of the `run_forever` body (gateway.py lines 47-58): the
events it emits, in program order.  `continue` ends the iteration. -/
def run_forever_iter (e : CycleEnv) : List LoopEvent :=
  let probe :=
    [LoopEvent.checkPort] ++ (if e.portOk then [] else [LoopEvent.enableTelnet])
  if !e.portOk && !e.enableOk then
    probe ++ [.sleep 30]
  else if !e.prepareOk then
    probe ++ [.prepare, .sleep 60]
  else
    probe ++ [.prepare, .handleMqtt]

/-- The infinite `while True` loop: iteration `n` of `run_forever`, under a
stream of per-iteration oracles.  Total in `n`: absent an external stop the
loop has an iteration for every `n`. -/
def run_forever (env : Nat → CycleEnv) (n : Nat) : List LoopEvent :=
  run_forever_iter (env n)

/-! ## Lifecycle (`start` / `stop`) -/

/-- Observable lifecycle actions of `start` and `stop`. -/
inductive TaskAction where
  | createTask
  | cancelRequest
  | yieldSleep
  deriving DecidableEq, Repr

/-- Embedding of `MultiGateway.start` (gateway.py lines 28-32): the run
state is `main_task : Option Unit`; returns the new state and the actions
performed. -/
def start (mainTask : Option Unit) : Option Unit × List TaskAction :=
  match mainTask with
  | some t => (some t, [])
  | none => (some (), [TaskAction.createTask])

/-- The cancel-poll loop of `stop` (gateway.py lines 41-43): `cancelled i`
is what `main_task.cancelled()` reports at the i-th check.  Returns the
actions performed until the task reports cancelled, or `none` when `fuel`
iterations were not enough (the loop is still running). -/
def stop_loop (cancelled : Nat → Bool) : Nat → Nat → Option (List TaskAction)
  | 0, _ => none
  | fuel + 1, i =>
    if cancelled i then some []
    else
      (stop_loop cancelled fuel (i + 1)).map
        (fun t => [TaskAction.cancelRequest, TaskAction.yieldSleep] ++ t)

/-- Embedding of `MultiGateway.stop` (gateway.py lines 34-44): no-op when no
task is recorded; otherwise polls cancellation and clears the run state only
once the task reports cancelled.  `none` means the poll loop has not
terminated within `fuel` rounds. -/
def stop (cancelled : Nat → Bool) (fuel : Nat) (mainTask : Option Unit) :
    Option (Option Unit × List TaskAction) :=
  match mainTask with
  | none => some (none, [])
  | some _ => (stop_loop cancelled fuel 0).map (fun t => (none, t))

/-- Actions of `prepare_gateway` that read an adapter family's inventory. -/
def isInventoryRead : PrepAction → Bool
  | .baseReadDevice => true
  | .lumiReadDevices => true
  | .silabsReadDevice => true
  | .openmiioPrepareGateway => true
  | .bleReadDevices => true
  | .meshReadDevices => true
  | .matterReadDevices => true
  | _ => false

/-- Actions of `prepare_gateway` that register an event listener. -/
def isListenerReg : PrepAction → Bool
  | .addListener _ _ => true
  | _ => false

/-! ## Theorems -/

/-- C4: for a Zigbee end-device, a payload holding both a radio-firmware
`commands` list and the legacy `cmd`/`did`/`params` triple yields exactly two
adapter calls — the legacy adapter receives exactly the cmd/did/params
sub-payload (no `commands`) and the radio-firmware adapter exactly the
`commands` sub-payload (no legacy keys); with only one of the two
discriminator keys present, only that adapter is called, with the payload
unmodified. -/
theorem send_zigbee_multispec_fanout :
    (∀ (c d : String) (ps : List Param) (mo : Option String) (cs : List Nat),
      send .zigbee ⟨some c, some d, some ps, mo, some cs⟩ =
        .ok [.lumiSend ⟨some c, some d, some ps, none, none⟩,
             .silabsSend ⟨none, none, none, none, some cs⟩])
  ∧ (∀ (c : String) (dd : Option String) (pp : Option (List Param))
       (mo : Option String),
      send .zigbee ⟨some c, dd, pp, mo, none⟩ =
        .ok [.lumiSend ⟨some c, dd, pp, mo, none⟩])
  ∧ (∀ (dd : Option String) (pp : Option (List Param)) (mo : Option String)
       (cs : List Nat),
      send .zigbee ⟨none, dd, pp, mo, some cs⟩ =
        .ok [.silabsSend ⟨none, dd, pp, mo, some cs⟩]) := by
  refine ⟨?_, ?_, ?_⟩ <;> intros <;> rfl

/-- C5: for a Gateway-self device, a payload with both the legacy `cmd` and
the cloud-RPC `method` discriminators fans out to both adapters — the legacy
adapter gets the parameter list filtered to `res_name`-tagged entries (with
`did` forced to `lumi.0`), the cloud-RPC adapter gets it filtered to
`siid`-tagged entries; a payload with `method` and no `cmd` makes exactly one
adapter call, cloud-RPC, with the payload unfiltered; a payload with `cmd`
and no `method` goes to the legacy adapter unfiltered. -/
theorem send_gateway_multispec_fanout :
    (∀ (c m : String) (dd : Option String) (ps : List Param)
       (co : Option (List Nat)),
      send .gateway ⟨some c, dd, some ps, some m, co⟩ =
        .ok [.lumiSend ⟨some c, some "lumi.0",
               some (ps.filter fun i => i.hasResName), none, none⟩,
             .miotSend ⟨none, none,
               some (ps.filter fun i => i.hasSiid), some m, none⟩])
  ∧ (∀ (m : String) (dd : Option String) (pp : Option (List Param))
       (co : Option (List Nat)),
      send .gateway ⟨none, dd, pp, some m, co⟩ =
        .ok [.miotSend ⟨none, dd, pp, some m, co⟩])
  ∧ (∀ (c : String) (dd : Option String) (pp : Option (List Param))
       (co : Option (List Nat)),
      send .gateway ⟨some c, dd, pp, none, co⟩ =
        .ok [.lumiSend ⟨some c, dd, pp, none, co⟩]) := by
  refine ⟨?_, ?_, ?_⟩ <;> intros <;> rfl

/-- C10: in the multispec paths of `send` the `params` (and, for Zigbee,
`did`) keys are read by unconditional subscript — a Gateway-self payload with
both `cmd` and `method` but no `params`, and a Zigbee payload with both `cmd`
and `commands` but missing `did` or `params`, make `send` raise `KeyError`
and perform no adapter call. -/
theorem send_multispec_missing_key_raises :
    (∀ (c m : String) (dd : Option String) (co : Option (List Nat)),
      send .gateway ⟨some c, dd, none, some m, co⟩ = .error ())
  ∧ (∀ (c : String) (pp : Option (List Param)) (mo : Option String)
       (cs : List Nat),
      send .zigbee ⟨some c, none, pp, mo, some cs⟩ = .error ())
  ∧ (∀ (c d : String) (mo : Option String) (cs : List Nat),
      send .zigbee ⟨some c, some d, none, mo, some cs⟩ = .error ()) := by
  refine ⟨?_, ?_, ?_⟩ <;> intros <;> rfl

/-- C8: when the mutual-exclusion check reports another manager holding the
device, `prepare_gateway` returns failure having performed nothing besides
that check — no identity fetch, no inventory read of any adapter family, no
event-listener registration. -/
theorem prepare_gateway_mutex_conflict (m v : String) (bt mp : Bool) :
    prepare_gateway ⟨false, m, v, bt, mp⟩ = (false, [PrepAction.onlyOneCheck])
    ∧ (prepare_gateway ⟨false, m, v, bt, mp⟩).2.countP
        (fun a => isInventoryRead a) = 0
    ∧ (prepare_gateway ⟨false, m, v, bt, mp⟩).2.countP
        (fun a => isListenerReg a) = 0
    ∧ PrepAction.getMiioInfo ∉ (prepare_gateway ⟨false, m, v, bt, mp⟩).2
    ∧ PrepAction.getVersion ∉ (prepare_gateway ⟨false, m, v, bt, mp⟩).2 := by
  refine ⟨rfl, ?_, ?_, ?_, ?_⟩ <;>
    simp [prepare_gateway, isInventoryRead, isListenerReg]

/-- C9: a session reporting model `lumi.gateway.mgl03` with a version string
lexicographically below `1.4.7_0160` is rejected: `prepare_gateway` returns
failure right after the identity and version fetch, before any inventory
read and before any listener registration. -/
theorem prepare_gateway_version_gate (v : String) (bt mp : Bool)
    (hv : v.data < "1.4.7_0160".data) :
    prepare_gateway ⟨true, "lumi.gateway.mgl03", v, bt, mp⟩ =
      (false, [PrepAction.onlyOneCheck, PrepAction.getMiioInfo,
               PrepAction.getVersion])
    ∧ (prepare_gateway ⟨true, "lumi.gateway.mgl03", v, bt, mp⟩).2.countP
        (fun a => isInventoryRead a) = 0
    ∧ (prepare_gateway ⟨true, "lumi.gateway.mgl03", v, bt, mp⟩).2.countP
        (fun a => isListenerReg a) = 0 := by
  refine ⟨?_, ?_, ?_⟩ <;>
    simp [prepare_gateway, hv, isInventoryRead, isListenerReg]

/-- C9 witness: the gate fires on the concrete version `1.4.6_0012`. -/
theorem prepare_gateway_version_gate_witness :
    ("1.4.6_0012" : String).data < "1.4.7_0160".data
    ∧ prepare_gateway ⟨true, "lumi.gateway.mgl03", "1.4.6_0012", true, false⟩ =
        (false, [PrepAction.onlyOneCheck, PrepAction.getMiioInfo,
                 PrepAction.getVersion]) :=
  ⟨by decide,
   (prepare_gateway_version_gate "1.4.6_0012" true false (by decide)).1⟩

/-- C3 counterexample: the Matter inventory read is not gated on any
feature-probe of the session object — a session exposing no Matter
capability probe but reporting model `lumi.gateway.mgl001` still gets a
Matter inventory read (the gate is the model-identifier comparison). -/
theorem matter_read_despite_no_probe :
    (prepare_gateway ⟨true, "lumi.gateway.mgl001", "1.0.0", false, false⟩).1
      = true
    ∧ PrepAction.matterReadDevices ∈
        (prepare_gateway ⟨true, "lumi.gateway.mgl001", "1.0.0", false, false⟩).2
    ∧ (Session.mk true "lumi.gateway.mgl001" "1.0.0" false false).hasMatterProbe
      = false := by
  refine ⟨rfl, ?_, rfl⟩
  simp [prepare_gateway]

/-- C3 (amended): on a bootstrap that passes the mutual-exclusion and
version gates, BLE/mesh inventory reads and their MQTT handlers happen if
and only if the session passes the `read_db_bluetooth` feature-probe, while
the Matter inventory read and its MQTT handler happen if and only if the
reported model is `lumi.gateway.mgl001` (a model-identifier check, not a
session feature-probe); in every such case the bootstrap succeeds and the
remaining adapters are read. -/
theorem prepare_gateway_capability_gating (sh : Session)
    (h1 : sh.onlyOne = true)
    (h2 : ¬(sh.model = "lumi.gateway.mgl03"
            ∧ sh.version.data < "1.4.7_0160".data)) :
    (prepare_gateway sh).1 = true
    ∧ (PrepAction.bleReadDevices ∈ (prepare_gateway sh).2
        ↔ sh.hasReadDbBluetooth = true)
    ∧ (PrepAction.meshReadDevices ∈ (prepare_gateway sh).2
        ↔ sh.hasReadDbBluetooth = true)
    ∧ (PrepAction.addListener .mqttPublish .bleOnMqttPublish
          ∈ (prepare_gateway sh).2
        ↔ sh.hasReadDbBluetooth = true)
    ∧ (PrepAction.addListener .mqttPublish .meshOnMqttPublish
          ∈ (prepare_gateway sh).2
        ↔ sh.hasReadDbBluetooth = true)
    ∧ (PrepAction.matterReadDevices ∈ (prepare_gateway sh).2
        ↔ sh.model = "lumi.gateway.mgl001")
    ∧ (PrepAction.addListener .mqttPublish .matterOnMqttPublish
          ∈ (prepare_gateway sh).2
        ↔ sh.model = "lumi.gateway.mgl001")
    ∧ PrepAction.lumiReadDevices ∈ (prepare_gateway sh).2
    ∧ PrepAction.silabsReadDevice ∈ (prepare_gateway sh).2
    ∧ PrepAction.openmiioPrepareGateway ∈ (prepare_gateway sh).2 := by
  obtain ⟨oo, m, v, bt, mp⟩ := sh
  simp only at h1 h2
  subst h1
  by_cases hm : m = "lumi.gateway.mgl001" <;> cases bt <;>
    simp [prepare_gateway, h2, hm]

/-- C3 witness: a session with the BLE/mesh probe absent, on a model that is
neither the version-gated one nor the Matter one, bootstraps successfully
with zero BLE/mesh inventory reads and zero BLE/mesh handlers. -/
theorem prepare_gateway_capability_gating_witness :
    (prepare_gateway ⟨true, "lumi.gateway.mgl002", "1.0.0", false, true⟩).1
      = true
    ∧ ¬ PrepAction.bleReadDevices ∈
        (prepare_gateway ⟨true, "lumi.gateway.mgl002", "1.0.0", false, true⟩).2
    ∧ ¬ PrepAction.meshReadDevices ∈
        (prepare_gateway ⟨true, "lumi.gateway.mgl002", "1.0.0", false, true⟩).2 := by
  have h := prepare_gateway_capability_gating
    ⟨true, "lumi.gateway.mgl002", "1.0.0", false, true⟩ rfl (by decide)
  exact ⟨h.1, fun hmem => by simpa using h.2.1.mp hmem,
         fun hmem => by simpa using h.2.2.1.mp hmem⟩

/-- C6: `telnet_command` is tri-state — for `lock_firmware` (with the lock
call itself succeeding) it returns `some b` where `b` is exactly what the
subsequent firmware-lock check reports, so `true` iff the check reports
locked and `false` otherwise; any command name outside the fixed enumeration
returns `none`; and an exception anywhere during execution — failing to open
the session, a failing lock call, or a failing check — also yields `none`. -/
theorem telnet_command_tristate :
    (∀ (env : TelnetEnv) (b : Bool),
      env.openOk = true → env.lockFirmwareTrue = .ok () →
      env.checkFirmwareLock = .ok b →
      telnet_command env "lock_firmware" = some b)
  ∧ (∀ (env : TelnetEnv) (cmd : String),
      cmd ≠ "run_ftp" → cmd ≠ "reboot" → cmd ≠ "openmiio_restart" →
      cmd ≠ "check_firmware_lock" → cmd ≠ "lock_firmware" →
      cmd ≠ "unlock_firmware" →
      telnet_command env cmd = none)
  ∧ (∀ (env : TelnetEnv) (cmd : String),
      env.openOk = false → telnet_command env cmd = none)
  ∧ (∀ (env : TelnetEnv),
      env.openOk = true → env.lockFirmwareTrue = .error () →
      telnet_command env "lock_firmware" = none)
  ∧ (∀ (env : TelnetEnv),
      env.openOk = true → env.lockFirmwareTrue = .ok () →
      env.checkFirmwareLock = .error () →
      telnet_command env "lock_firmware" = none) := by
  refine ⟨?_, ?_, ?_, ?_, ?_⟩
  · intro env b h1 h2 h3
    cases b <;> simp [telnet_command, telnetBody, h1, h2, h3]
  · intro env cmd h1 h2 h3 h4 h5 h6
    cases ho : env.openOk <;>
      simp [telnet_command, telnetBody, ho, h1, h2, h3, h4, h5, h6]
  · intro env cmd h1
    simp [telnet_command, telnetBody, h1]
  · intro env h1 h2
    simp [telnet_command, telnetBody, h1, h2]
  · intro env h1 h2 h3
    simp [telnet_command, telnetBody, h1, h2, h3]

/-- C6 witness: concrete oracles exercising each discharged hypothesis. -/
theorem telnet_command_tristate_witness :
    telnet_command
        ⟨true, .ok (), .ok (), .ok (), .ok (), .ok (), .ok (), .ok false⟩
        "lock_firmware" = some false
    ∧ telnet_command
        ⟨true, .ok (), .ok (), .ok (), .ok (), .ok (), .ok (), .ok true⟩
        "bogus_command" = none
    ∧ telnet_command
        ⟨false, .ok (), .ok (), .ok (), .ok (), .ok (), .ok (), .ok true⟩
        "reboot" = none
    ∧ telnet_command
        ⟨true, .ok (), .ok (), .ok (), .ok (), .error (), .ok (), .ok true⟩
        "lock_firmware" = none
    ∧ telnet_command
        ⟨true, .ok (), .ok (), .ok (), .ok (), .ok (), .ok (), .error ()⟩
        "lock_firmware" = none :=
  ⟨telnet_command_tristate.1 _ false rfl rfl rfl,
   telnet_command_tristate.2.1 _ "bogus_command"
     (by decide) (by decide) (by decide) (by decide) (by decide) (by decide),
   telnet_command_tristate.2.2.1 _ "reboot" rfl,
   telnet_command_tristate.2.2.2.1 _ rfl rfl,
   telnet_command_tristate.2.2.2.2 _ rfl rfl rfl⟩

/-- Helper: a failed bootstrap registers no listeners. -/
theorem listenersOf_of_not_prepared (sh : Session)
    (h : (prepare_gateway sh).1 = false) :
    listenersOf (prepare_gateway sh).2 = [] := by
  cases hoo : sh.onlyOne with
  | false => simp [prepare_gateway, hoo, listenersOf]
  | true =>
    by_cases hver : sh.model = "lumi.gateway.mgl03"
        ∧ sh.version.data < "1.4.7_0160".data
    · simp [prepare_gateway, hoo, hver, listenersOf]
    · simp [prepare_gateway, hoo, hver] at h

/-- Helper: the registry is empty at the start of every supervisor cycle. -/
theorem registryBefore_empty (shs : Nat → Session) (n : Nat) :
    registryBefore shs n = [] := by
  induction n with
  | zero => rfl
  | succ n ih =>
    show registryAfterCycle (shs n) (registryBefore shs n) = []
    rw [ih]
    unfold registryAfterCycle
    by_cases hp : (prepare_gateway (shs n)).1 = true
    · simp [hp, clear_listeners]
    · have h0 := listenersOf_of_not_prepared (shs n)
        (by simpa using hp)
      simp [hp, registryAfterPrepare, h0]

/-- C2: on every reconnect cycle the listener registry is entirely rebuilt —
at the start of each cycle it is empty, and right after any successful
`prepare_gateway` it holds exactly the handlers registered during that
cycle's bootstrap, none from an earlier cycle. -/
theorem registry_rebuilt_each_cycle (shs : Nat → Session) (n : Nat) :
    registryBefore shs n = []
    ∧ ((prepare_gateway (shs n)).1 = true →
        registryAfterPrepare (shs n) (registryBefore shs n) =
          listenersOf (prepare_gateway (shs n)).2) := by
  refine ⟨registryBefore_empty shs n, fun _ => ?_⟩
  rw [registryAfterPrepare, registryBefore_empty shs n, List.nil_append]

/-- C2 witness: two consecutive successful cycles on a concrete session
stream; the registry at the start of cycle 1 is empty and after cycle 1's
bootstrap holds exactly that bootstrap's registrations. -/
theorem registry_rebuilt_each_cycle_witness :
    (prepare_gateway ⟨true, "lumi.gateway.mgl001", "1.0.0", true, true⟩).1
      = true
    ∧ registryAfterPrepare ⟨true, "lumi.gateway.mgl001", "1.0.0", true, true⟩
        (registryBefore
          (fun _ => ⟨true, "lumi.gateway.mgl001", "1.0.0", true, true⟩) 1) =
      listenersOf
        (prepare_gateway ⟨true, "lumi.gateway.mgl001", "1.0.0", true, true⟩).2 :=
  ⟨by decide,
   (registry_rebuilt_each_cycle
      (fun _ => ⟨true, "lumi.gateway.mgl001", "1.0.0", true, true⟩) 1).2
     (by decide)⟩

/-- Helper: every loop iteration opens with the administrative-port probe. -/
theorem run_forever_iter_head (e : CycleEnv) :
    (run_forever_iter e).head? = some .checkPort := by
  obtain ⟨p, en, pr⟩ := e
  cases p <;> cases en <;> cases pr <;> simp [run_forever_iter]

/-- Helper: case analysis of one `run_forever` iteration. -/
theorem run_forever_iter_policy (e : CycleEnv) :
    (e.portOk = false → e.enableOk = false →
      run_forever_iter e = [.checkPort, .enableTelnet, .sleep 30])
    ∧ ((e.portOk = true ∨ e.enableOk = true) → e.prepareOk = false →
        run_forever_iter e =
          (if e.portOk then [LoopEvent.checkPort]
           else [.checkPort, .enableTelnet]) ++ [.prepare, .sleep 60])
    ∧ ((e.portOk = true ∨ e.enableOk = true) → e.prepareOk = true →
        run_forever_iter e =
          (if e.portOk then [LoopEvent.checkPort]
           else [.checkPort, .enableTelnet]) ++ [.prepare, .handleMqtt]
        ∧ ∀ s, LoopEvent.sleep s ∉ run_forever_iter e) := by
  obtain ⟨p, en, pr⟩ := e
  cases p <;> cases en <;> cases pr <;> simp [run_forever_iter]

/-- C1: per iteration of the supervisor loop — if the port probe fails and
the privileged-access enable fails, the iteration is probe, enable attempt,
then a 30-unit sleep; if bootstrap is reached and fails, the iteration ends
with a 60-unit sleep; if bootstrap succeeds, the event phase runs, the
iteration contains no sleep at all; and the next iteration always exists and
begins again with the probe (the loop never terminates absent a stop). -/
theorem run_forever_loop_policy (env : Nat → CycleEnv) (n : Nat) :
    ((env n).portOk = false → (env n).enableOk = false →
      run_forever env n = [.checkPort, .enableTelnet, .sleep 30])
    ∧ (((env n).portOk = true ∨ (env n).enableOk = true) →
        (env n).prepareOk = false →
        run_forever env n =
          (if (env n).portOk then [LoopEvent.checkPort]
           else [.checkPort, .enableTelnet]) ++ [.prepare, .sleep 60])
    ∧ (((env n).portOk = true ∨ (env n).enableOk = true) →
        (env n).prepareOk = true →
        run_forever env n =
          (if (env n).portOk then [LoopEvent.checkPort]
           else [.checkPort, .enableTelnet]) ++ [.prepare, .handleMqtt]
        ∧ ∀ s, LoopEvent.sleep s ∉ run_forever env n)
    ∧ (run_forever env (n + 1)).head? = some .checkPort :=
  ⟨(run_forever_iter_policy (env n)).1,
   (run_forever_iter_policy (env n)).2.1,
   (run_forever_iter_policy (env n)).2.2,
   run_forever_iter_head (env (n + 1))⟩

/-- C1 witness: the three cycle shapes on concrete oracle streams, plus the
restart of the following iteration. -/
theorem run_forever_loop_policy_witness :
    run_forever (fun _ => ⟨false, false, true⟩) 0 =
      [.checkPort, .enableTelnet, .sleep 30]
    ∧ run_forever (fun _ => ⟨true, true, false⟩) 0 =
        [LoopEvent.checkPort] ++ [.prepare, .sleep 60]
    ∧ (run_forever (fun _ => ⟨false, true, true⟩) 0 =
          [LoopEvent.checkPort, .enableTelnet] ++ [.prepare, .handleMqtt]
        ∧ ∀ s, LoopEvent.sleep s ∉ run_forever (fun _ => ⟨false, true, true⟩) 0)
    ∧ (run_forever (fun _ => ⟨false, false, true⟩) 1).head? =
        some .checkPort := by
  refine ⟨(run_forever_loop_policy (fun _ => ⟨false, false, true⟩) 0).1 rfl rfl,
          ?_, ?_,
          (run_forever_loop_policy (fun _ => ⟨false, false, true⟩) 0).2.2.2⟩
  · have h := (run_forever_loop_policy (fun _ => ⟨true, true, false⟩) 0).2.1
      (Or.inl rfl) rfl
    simpa using h
  · have h := (run_forever_loop_policy (fun _ => ⟨false, true, true⟩) 0).2.2.1
      (Or.inr rfl) rfl
    simpa using h

/-- Helper: the cancel-poll loop of `stop` performs exactly one
cancel-and-yield round per negative `cancelled()` report, stopping at the
first positive one. -/
theorem stop_loop_spec (cancelled : Nat → Bool) :
    ∀ (k i fuel : Nat), (∀ j, j < k → cancelled (i + j) = false) →
      cancelled (i + k) = true → k < fuel →
      stop_loop cancelled fuel i =
        some (List.flatten (List.replicate k
          [TaskAction.cancelRequest, TaskAction.yieldSleep])) := by
  intro k
  induction k with
  | zero =>
    intro i fuel h0 hk hf
    obtain ⟨fuel, rfl⟩ : ∃ f, fuel = f + 1 := ⟨fuel - 1, by omega⟩
    simp only [Nat.add_zero] at hk
    simp [stop_loop, hk]
  | succ k ih =>
    intro i fuel h0 hk hf
    obtain ⟨fuel, rfl⟩ : ∃ f, fuel = f + 1 := ⟨fuel - 1, by omega⟩
    have hi : cancelled i = false := by simpa using h0 0 (Nat.succ_pos k)
    have ht := ih (i + 1) fuel
      (fun j hj => by
        have hj1 := h0 (j + 1) (by omega)
        have : i + 1 + j = i + (j + 1) := by omega
        rw [this]; exact hj1)
      (by
        have : i + 1 + k = i + (k + 1) := by omega
        rw [this]; exact hk)
      (by omega)
    simp [stop_loop, hi, ht, List.replicate_succ]

/-- Helper: while the task never reports cancelled, the poll loop of `stop`
does not finish, whatever the fuel. -/
theorem stop_loop_never (cancelled : Nat → Bool)
    (h : ∀ j, cancelled j = false) :
    ∀ fuel i, stop_loop cancelled fuel i = none := by
  intro fuel
  induction fuel with
  | zero => intro i; rfl
  | succ fuel ih => intro i; simp [stop_loop, h i, ih]

/-- C7: at most one live supervisor task — `start` is a no-op (launches
nothing) when a task is recorded and records exactly one new task otherwise;
`stop` is a no-op when no task is recorded (including when `start` never
ran); on a recorded task whose `cancelled()` first reports true at round
`k`, `stop` performs exactly `k` cancel-and-yield rounds and only then
clears the run-state; while the task never reports cancelled, `stop` does
not return and the run-state is not cleared. -/
theorem lifecycle_single_task (cancelled : Nat → Bool) (k fuel : Nat) :
    (∀ t, start (some t) = (some t, []))
    ∧ start none = (some (), [TaskAction.createTask])
    ∧ stop cancelled fuel none = some (none, [])
    ∧ ((∀ j, j < k → cancelled j = false) → cancelled k = true → k < fuel →
        stop cancelled fuel (some ()) =
          some (none, List.flatten (List.replicate k
            [TaskAction.cancelRequest, TaskAction.yieldSleep])))
    ∧ ((∀ j, cancelled j = false) → stop cancelled fuel (some ()) = none) := by
  refine ⟨fun t => rfl, rfl, rfl, fun h0 hk hf => ?_, fun h => ?_⟩
  · have hl := stop_loop_spec cancelled k 0 fuel (by simpa using h0)
      (by simpa using hk) hf
    simp [stop, hl]
  · simp [stop, stop_loop_never cancelled h fuel 0]

/-- C7 witness: a task whose cancellation lands after two rounds — `stop`
does two cancel-and-yield rounds then clears the state; `stop` with no
recorded task is a no-op. -/
theorem lifecycle_single_task_witness :
    stop (fun i => decide (2 ≤ i)) 5 (some ()) =
      some (none, List.flatten (List.replicate 2
        [TaskAction.cancelRequest, TaskAction.yieldSleep]))
    ∧ stop (fun i => decide (2 ≤ i)) 5 none = some (none, []) :=
  ⟨(lifecycle_single_task (fun i => decide (2 ≤ i)) 2 5).2.2.2.1
     (by decide) (by decide) (by decide),
   (lifecycle_single_task (fun i => decide (2 ≤ i)) 2 5).2.2.1⟩

end XiaomiGateway3
